import Mathlib

/-!
Verification of qpylib's retry/wait combinators (`date_n_time/timing.py`)
and its Chrome remote-debugging driver layer (`uidriver/chrome_driver.py`,
`uidriver/webdriver_helper.py`), via a shallow embedding in Lean.

Side-effecting Python code is modelled by explicit state passing: the
success predicate / action functions, which may behave differently on
each invocation because they observe the outside world, are modelled as
functions of the attempt index (a trace of outcomes); exceptions are
modelled by explicit outcome types; `time.sleep` has no observable
effect in the model and is dropped.
-/

/-- Outcome of one invocation of a success predicate passed to
`Wait.Until`: a normal return, the internal `_ShouldRetrySignal`
(carrying a diagnostic message), or any other raised exception. -/
inductive PredOutcome (α ε : Type) where
  | ok (v : α)
  | retrySignal (msg : String)
  | exc (e : ε)
deriving DecidableEq

/-- Whether a predicate invocation raised `_ShouldRetrySignal`. -/
def PredOutcome.isRetry {α ε : Type} : PredOutcome α ε → Bool
  | .retrySignal _ => true
  | _ => false

/-- Result of a `Wait.Until` call: a normal return, the
`WaitOutOfRetriesException` (whose message carries the configured
`num_of_retries`), or a propagated exception. -/
inductive WaitResult (α ε : Type) where
  | value (v : α)
  | outOfRetries (num_of_retries : Int)
  | exc (e : ε)
deriving DecidableEq

/-- The `Wait` object: `__init__` merely stores its arguments, with no
validation of `num_of_retries`. -/
structure Wait where
  num_of_retries : Int
  wait_between_retries_sec : Float

/-- The `for _ in range(self._num_of_retries)` loop body of `Wait.Until`:
`remaining` iterations are left and `attempt` predicate invocations were
made so far.  Each iteration invokes the predicate once; a normal return
is returned immediately, `_ShouldRetrySignal` sleeps and continues, any
other exception propagates; when the loop ends,
`WaitOutOfRetriesException` is raised carrying `budget`
(`self._num_of_retries`).  The result is paired with the total number of
predicate invocations performed. -/
def untilGo {α ε : Type} (pred : Nat → PredOutcome α ε) (budget : Int) :
    Nat → Nat → WaitResult α ε × Nat
  | 0, attempt => (.outOfRetries budget, attempt)
  | m + 1, attempt =>
    match pred attempt with
    | .ok v => (.value v, attempt + 1)
    | .retrySignal _ => untilGo pred budget m (attempt + 1)
    | .exc e => (.exc e, attempt + 1)

/-- `Wait.Until`: runs the success predicate up to `num_of_retries`
times (Python's `range(n)` iterates `max(n, 0)` times, i.e.
`Int.toNat`); on exhaustion raises `WaitOutOfRetriesException` carrying
`num_of_retries`.  Returns the result together with the number of
predicate invocations. -/
def Wait.Until {α ε : Type} (w : Wait) (pred : Nat → PredOutcome α ε) :
    WaitResult α ε × Nat :=
  untilGo pred w.num_of_retries w.num_of_retries.toNat 0

/-- Outcome of one invocation of an action function: normal return or a
raised exception. -/
inductive ActOutcome (α ε : Type) where
  | ok (v : α)
  | exc (e : ε)
deriving DecidableEq

/-- The inner `CheckValuePredicate` of `Wait.UntilValue`: calls the
action; if `predicate_func` accepts the result, returns it, otherwise
raises `_ShouldRetrySignal` carrying the stringified result capped at
200 characters (`str` models Python `str` on the value type).  An
exception raised by the action itself is not caught and propagates. -/
def CheckValuePredicate {α ε : Type} (predicate_func : α → Bool)
    (str : α → String) (action : Nat → ActOutcome α ε) (i : Nat) :
    PredOutcome α ε :=
  match action i with
  | .ok result =>
    if predicate_func result then .ok result
    else .retrySignal
      ("Return value (capped at 200 characters): " ++ (str result).take 200)
  | .exc e => .exc e

/-- `Wait.UntilValue`: runs `Until` with `CheckValuePredicate`.  The
Python body calls `self.Until(...)` without `return`, so on success the
method returns `None` (modelled as `Unit`), discarding the value that
`Until` produced; raised exceptions still propagate. -/
def Wait.UntilValue {α ε : Type} (w : Wait) (predicate_func : α → Bool)
    (str : α → String) (action : Nat → ActOutcome α ε) :
    WaitResult Unit ε × Nat :=
  match w.Until (CheckValuePredicate predicate_func str action) with
  | (.value _, calls) => (.value (), calls)
  | (.outOfRetries b, calls) => (.outOfRetries b, calls)
  | (.exc e, calls) => (.exc e, calls)

/-- `Wait.UntilTrue`: `UntilValue` specialised to Python truthiness
(`lambda x: bool(x)`); `truthy` models `bool` on the value type. -/
def Wait.UntilTrue {α ε : Type} (w : Wait) (truthy : α → Bool)
    (str : α → String) (action : Nat → ActOutcome α ε) :
    WaitResult Unit ε × Nat :=
  w.UntilValue truthy str action

/-- The inner `CheckExceptionPredicate` of `Wait.UntilNoException`:
calls the action; a normal return is passed through; an exception that
is an instance of the given exception type (`isInst` models
`isinstance(e, exception_type)`) is converted into `_ShouldRetrySignal`
(carrying the stringified exception, via `strE`), any other exception is
re-raised. -/
def CheckExceptionPredicate {α ε : Type} (isInst : ε → Bool)
    (strE : ε → String) (action : Nat → ActOutcome α ε) (i : Nat) :
    PredOutcome α ε :=
  match action i with
  | .ok v => .ok v
  | .exc e => if isInst e then .retrySignal (strE e) else .exc e

/-- `Wait.UntilNoException`: `return self.Until(CheckExceptionPredicate,
...)` — unlike `UntilValue`, the value is returned to the caller. -/
def Wait.UntilNoException {α ε : Type} (w : Wait) (isInst : ε → Bool)
    (strE : ε → String) (action : Nat → ActOutcome α ε) :
    WaitResult α ε × Nat :=
  w.Until (CheckExceptionPredicate isInst strE action)

/-- If every predicate invocation raises `_ShouldRetrySignal`, the loop
runs through all remaining iterations and raises
`WaitOutOfRetriesException` carrying the budget. -/
theorem untilGo_all_retry {α ε : Type} (pred : Nat → PredOutcome α ε)
    (budget : Int) (h : ∀ i, (pred i).isRetry = true) :
    ∀ (m a : Nat), untilGo pred budget m a = (.outOfRetries budget, a + m) := by
  intro m
  induction m with
  | zero => intro a; simp [untilGo]
  | succ k ih =>
    intro a
    have ha := h a
    cases hp : pred a with
    | ok v => rw [hp] at ha; simp [PredOutcome.isRetry] at ha
    | retrySignal msg =>
      have : untilGo pred budget (k + 1) a = untilGo pred budget k (a + 1) := by
        simp [untilGo, hp]
      rw [this, ih (a + 1)]
      congr 1
      omega
    | exc e => rw [hp] at ha; simp [PredOutcome.isRetry] at ha

/-- C1: for every retry budget `n ≥ 1` and every predicate that raises
the retry signal on every attempt, `Wait.Until` invokes the predicate
exactly `n` times and then raises `WaitOutOfRetriesException` carrying
the attempt count `num_of_retries`. -/
theorem wait_until_out_of_retries {α ε : Type} (w : Wait)
    (pred : Nat → PredOutcome α ε) (hn : 1 ≤ w.num_of_retries)
    (hr : ∀ i, (pred i).isRetry = true) :
    w.Until pred = (.outOfRetries w.num_of_retries, w.num_of_retries.toNat)
    ∧ (w.num_of_retries.toNat : Int) = w.num_of_retries := by
  constructor
  · show untilGo pred w.num_of_retries w.num_of_retries.toNat 0 = _
    rw [untilGo_all_retry pred _ hr]
    simp
  · exact Int.toNat_of_nonneg (le_trans (by norm_num) hn)

/-- Witness for C1 at budget 3 and an always-retry predicate. -/
theorem wait_until_out_of_retries_witness :
    (Wait.mk 3 0.5).Until (fun _ => (.retrySignal "e" : PredOutcome Nat Nat))
      = (.outOfRetries 3, 3) :=
  (wait_until_out_of_retries (Wait.mk 3 0.5)
    (fun _ => (.retrySignal "e" : PredOutcome Nat Nat))
    (by norm_num) (fun _ => rfl)).1

/-- C10: a `Wait` constructed with `num_of_retries ≤ 0` stores the value
unvalidated, and `Until` raises `WaitOutOfRetriesException` immediately
with zero predicate (hence zero action) invocations. -/
theorem wait_until_nonpositive_budget {α ε : Type} (n : Int) (sec : Float)
    (pred : Nat → PredOutcome α ε) (hn : n ≤ 0) :
    (Wait.mk n sec).num_of_retries = n
    ∧ (Wait.mk n sec).Until pred = (.outOfRetries n, 0) := by
  refine ⟨rfl, ?_⟩
  show untilGo pred n (Int.toNat n) 0 = _
  rw [Int.toNat_of_nonpos hn]
  rfl

/-- Witness for C10 at budget `-1`. -/
theorem wait_until_nonpositive_budget_witness :
    (Wait.mk (-1) 0.5).num_of_retries = -1
    ∧ (Wait.mk (-1) 0.5).Until (fun _ => (.ok 0 : PredOutcome Nat Nat))
      = (.outOfRetries (-1), 0) :=
  wait_until_nonpositive_budget (-1) 0.5
    (fun _ => (.ok 0 : PredOutcome Nat Nat)) (by norm_num)

/-- C2 (code bug): with budget 3 and an action whose first result `42`
satisfies the predicate, `UntilValue` makes exactly one invocation but
returns `()` (Python `None`): the body calls `self.Until(...)` without
`return`, discarding the value `42` that the inner `Until` produced, in
contradiction with the method's `-> t.Any` annotation and the spec. -/
theorem until_value_discards_result :
    (Wait.mk 3 0.5).UntilValue (fun _ => true) toString
      (fun _ => (.ok 42 : ActOutcome Int Nat)) = (.value (), 1)
    ∧ (Wait.mk 3 0.5).Until (CheckValuePredicate (fun _ => true) toString
      (fun _ => (.ok 42 : ActOutcome Int Nat))) = (.value 42, 1) :=
  ⟨rfl, rfl⟩

/-- If the first `j` predicate invocations (starting at attempt `a`) all
raise the retry signal, the loop just consumes them. -/
theorem untilGo_skip {α ε : Type} (pred : Nat → PredOutcome α ε) (budget : Int) :
    ∀ (j m a : Nat), j ≤ m → (∀ i, i < j → (pred (a + i)).isRetry = true) →
    untilGo pred budget m a = untilGo pred budget (m - j) (a + j) := by
  intro j
  induction j with
  | zero => intro m a _ _; simp
  | succ k ih =>
    intro m a hjm hr
    cases m with
    | zero => omega
    | succ m0 =>
      have h0 := hr 0 (Nat.succ_pos k)
      rw [Nat.add_zero] at h0
      cases hp : pred a with
      | ok v => rw [hp] at h0; simp [PredOutcome.isRetry] at h0
      | exc e => rw [hp] at h0; simp [PredOutcome.isRetry] at h0
      | retrySignal msg =>
        have step : untilGo pred budget (m0 + 1) a
            = untilGo pred budget m0 (a + 1) := by
          simp [untilGo, hp]
        rw [step]
        have hr2 : ∀ i, i < k → (pred (a + 1 + i)).isRetry = true := by
          intro i hi
          have := hr (i + 1) (by omega)
          rwa [show a + (i + 1) = a + 1 + i by omega] at this
        rw [ih m0 (a + 1) (by omega) hr2]
        have e1 : m0 - k = m0 + 1 - (k + 1) := by omega
        have e2 : a + 1 + k = a + (k + 1) := by omega
        rw [e1, e2]

/-- C7: `UntilNoException` retries only while the action raises an
instance of the given exception type: if the first `j` attempts all
raise matching exceptions and attempt `j` (within budget) raises a
non-matching exception, that exception propagates at its first
occurrence with no further invocation; if attempt `j` instead returns
normally, the action's value is returned.  In both cases exactly `j + 1`
action invocations are made. -/
theorem until_no_exception_first_non_retry {α ε : Type} (w : Wait)
    (isInst : ε → Bool) (strE : ε → String) (action : Nat → ActOutcome α ε)
    (j : Nat) (hj : j < w.num_of_retries.toNat)
    (hpre : ∀ i, i < j → ∃ e, action i = .exc e ∧ isInst e = true) :
    (∀ e, action j = .exc e → isInst e = false →
      w.UntilNoException isInst strE action = (.exc e, j + 1))
    ∧ (∀ v, action j = .ok v →
      w.UntilNoException isInst strE action = (.value v, j + 1)) := by
  have hretry : ∀ i, i < j →
      ((CheckExceptionPredicate isInst strE action) (0 + i)).isRetry = true := by
    intro i hi
    obtain ⟨e, he, hinst⟩ := hpre i hi
    simp [CheckExceptionPredicate, Nat.zero_add, he, hinst, PredOutcome.isRetry]
  have hskip := untilGo_skip (CheckExceptionPredicate isInst strE action)
    w.num_of_retries j w.num_of_retries.toNat 0 (Nat.le_of_lt hj) hretry
  obtain ⟨k, hk⟩ : ∃ k, w.num_of_retries.toNat - j = k + 1 :=
    ⟨w.num_of_retries.toNat - j - 1, by omega⟩
  constructor
  · intro e he hinst
    show untilGo (CheckExceptionPredicate isInst strE action)
      w.num_of_retries w.num_of_retries.toNat 0 = _
    rw [hskip, hk, Nat.zero_add]
    have hpj : (CheckExceptionPredicate isInst strE action) j = .exc e := by
      simp [CheckExceptionPredicate, he, hinst]
    simp [untilGo, hpj]
  · intro v hv
    show untilGo (CheckExceptionPredicate isInst strE action)
      w.num_of_retries w.num_of_retries.toNat 0 = _
    rw [hskip, hk, Nat.zero_add]
    have hpj : (CheckExceptionPredicate isInst strE action) j = .ok v := by
      simp [CheckExceptionPredicate, hv]
    simp [untilGo, hpj]

/-- Witness for C7: budget 3, attempt 0 raises a matching exception
(kind 0), attempt 1 raises a non-matching exception (kind 1), which
propagates after exactly 2 invocations. -/
theorem until_no_exception_first_non_retry_witness :
    (Wait.mk 3 0.5).UntilNoException (fun e => e == 0) (fun _ => "")
      (fun i => if i = 0 then (.exc 0 : ActOutcome Nat Nat) else .exc 1)
      = (.exc 1, 2) :=
  (until_no_exception_first_non_retry (Wait.mk 3 0.5) (fun e => e == 0)
    (fun _ => "")
    (fun i => if i = 0 then (.exc 0 : ActOutcome Nat Nat) else .exc 1)
    1 (by norm_num)
    (fun i hi => by
      have hz : i = 0 := by omega
      subst hz
      exact ⟨0, rfl, rfl⟩)).1 1 rfl rfl

/-- A JSON leaf value, as carried by the debugging-protocol messages. -/
inductive JrVal where
  | jnull
  | jbool (b : Bool)
  | jnum (n : Int)
  | jstr (s : String)
deriving DecidableEq

/-- A JSON object as an ordered association list, modelling a Python
dict (insertion-ordered, unique keys). -/
abbrev JsonObj := List (String × JrVal)

/-- Python `obj[k]` / `k in obj`: first binding of `k`, if any. -/
def lookupKey : JsonObj → String → Option JrVal
  | [], _ => none
  | (k0, v0) :: rest, k => if k0 = k then some v0 else lookupKey rest k

/-- Python `obj[k] = v`: replaces the existing binding of `k` in place,
otherwise appends a new binding. -/
def setKey : JsonObj → String → JrVal → JsonObj
  | [], k, v => [(k, v)]
  | (k0, v0) :: rest, k, v =>
    if k0 = k then (k, v) :: rest else (k0, v0) :: setKey rest k v

/-- `_CHROME_REMOTE_DEBUGGING_ID`: the fixed correlation id stamped on
every outgoing command. -/
def CHROME_REMOTE_DEBUGGING_ID : Int := 77

/-- Result of the receive loop in `ChromeCommunicator.RunCommand`. -/
inductive RecvResult where
  | found (r : JsonObj)
  | keyError
  | blocked
deriving DecidableEq

/-- The `while True` receive loop of `RunCommand`: reads responses in
order; `response['id']` raises `KeyError` when the field is missing;
a response whose id is not `77` is discarded and the loop continues;
the first response with id `77` is returned.  If no response ever
matches, `recv` blocks forever (`blocked`). -/
def recvLoop : List JsonObj → RecvResult
  | [] => .blocked
  | r :: rest =>
    match lookupKey r "id" with
    | none => .keyError
    | some v =>
      if v = .jnum CHROME_REMOTE_DEBUGGING_ID then .found r else recvLoop rest

/-- `ChromeCommunicator.RunCommand`: stamps `cmd['id'] = 77` (mutating
the caller's object), sends it, then runs the receive loop over the
incoming responses.  Returns the mutated command together with the
loop's result. -/
def RunCommand (cmd : JsonObj) (responses : List JsonObj) :
    JsonObj × RecvResult :=
  (setKey cmd "id" (.jnum CHROME_REMOTE_DEBUGGING_ID), recvLoop responses)

/-- Outcome of `ChromeCommunicator.RunJs_GetValue` on a decoded result
object: a returned value, a raised `ChromeCommunicatorCommandJsError`
carrying the description, a raised
`ChromeCommunicatorCommandUnknownError` carrying the result object
(whose JSON dump is the raw payload), or a `KeyError` on a missing
field. -/
inductive JsResult where
  | ret (v : JrVal)
  | jsError (description : JrVal)
  | unknownError (raw : JsonObj)
  | keyError (key : String)
deriving DecidableEq

/-- `ChromeCommunicator.RunJs_GetValue`, applied to the decoded result
object: `'value' in result` wins first; then subtype `node` returns
`result['objectId']`; subtype `error` raises the JS error with
`result['description']`; anything else raises the unknown-result
error carrying the result. -/
def RunJs_GetValue (result : JsonObj) : JsResult :=
  match lookupKey result "value" with
  | some v => .ret v
  | none =>
    match lookupKey result "subtype" with
    | some st =>
      if st = .jstr "node" then
        match lookupKey result "objectId" with
        | some oid => .ret oid
        | none => .keyError "objectId"
      else if st = .jstr "error" then
        match lookupKey result "description" with
        | some d => .jsError d
        | none => .keyError "description"
      else .unknownError result
    | none => .unknownError result

/-- C5: if every incoming response carries an id and some response
carries the fixed id 77, `RunCommand` returns the first such response,
discarding every earlier response whose id does not match. -/
theorem run_command_first_matching (cmd : JsonObj)
    (responses : List JsonObj)
    (hids : ∀ r ∈ responses, (lookupKey r "id").isSome = true)
    (hex : ∃ r ∈ responses,
      lookupKey r "id" = some (.jnum CHROME_REMOTE_DEBUGGING_ID)) :
    ∃ pre m post, responses = pre ++ m :: post
      ∧ (∀ r ∈ pre,
          lookupKey r "id" ≠ some (.jnum CHROME_REMOTE_DEBUGGING_ID))
      ∧ lookupKey m "id" = some (.jnum CHROME_REMOTE_DEBUGGING_ID)
      ∧ (RunCommand cmd responses).2 = .found m := by
  induction responses with
  | nil => simp at hex
  | cons r rest ih =>
    cases hr : lookupKey r "id" with
    | none =>
      have := hids r (by simp)
      rw [hr] at this
      simp at this
    | some v =>
      by_cases hv : v = .jnum CHROME_REMOTE_DEBUGGING_ID
      · refine ⟨[], r, rest, by simp, by simp, by rw [hr, hv], ?_⟩
        show recvLoop (r :: rest) = .found r
        simp [recvLoop, hr, hv]
      · have hex2 : ∃ x ∈ rest,
            lookupKey x "id" = some (.jnum CHROME_REMOTE_DEBUGGING_ID) := by
          obtain ⟨x, hx, hxid⟩ := hex
          rcases List.mem_cons.1 hx with hxr | hxrest
          · subst hxr; rw [hr] at hxid
            exact absurd (Option.some_injective _ hxid) hv
          · exact ⟨x, hxrest, hxid⟩
        have hids2 : ∀ x ∈ rest, (lookupKey x "id").isSome = true :=
          fun x hx => hids x (List.mem_cons_of_mem r hx)
        obtain ⟨pre, m, post, heq, hpre, hm, hres⟩ := ih hids2 hex2
        refine ⟨r :: pre, m, post, by rw [heq, List.cons_append], ?_, hm, ?_⟩
        · intro x hx
          rcases List.mem_cons.1 hx with hxr | hxpre
          · subst hxr; rw [hr]
            intro hc
            exact hv (Option.some_injective _ hc)
          · exact hpre x hxpre
        · show recvLoop (r :: rest) = .found m
          have : recvLoop (r :: rest) = recvLoop rest := by
            simp [recvLoop, hr, hv]
          rw [this]
          exact hres

/-- Witness for C5: an out-of-order response with id 5 is discarded and
the response with id 77 is returned. -/
theorem run_command_first_matching_witness :
    ∃ pre m post,
      ([[("id", JrVal.jnum 5)], [("id", JrVal.jnum 77), ("ok", JrVal.jbool true)]]
        : List JsonObj) = pre ++ m :: post
      ∧ (∀ r ∈ pre,
          lookupKey r "id" ≠ some (.jnum CHROME_REMOTE_DEBUGGING_ID))
      ∧ lookupKey m "id" = some (.jnum CHROME_REMOTE_DEBUGGING_ID)
      ∧ (RunCommand [("method", JrVal.jstr "Runtime.evaluate")]
          [[("id", JrVal.jnum 5)], [("id", JrVal.jnum 77), ("ok", JrVal.jbool true)]]).2
        = .found m :=
  run_command_first_matching _ _ (by decide) (by decide)

/-- After `setKey o k v`, looking up `k` yields `v`. -/
theorem lookupKey_setKey_self (o : JsonObj) (k : String) (v : JrVal) :
    lookupKey (setKey o k v) k = some v := by
  induction o with
  | nil => simp [setKey, lookupKey]
  | cons p rest ih =>
    by_cases h : p.1 = k
    · simp [setKey, lookupKey, h]
    · simp [setKey, lookupKey, h, ih]

/-- `setKey o k v` leaves every other key's binding unchanged. -/
theorem lookupKey_setKey_other (o : JsonObj) (k k2 : String) (v : JrVal)
    (h : k2 ≠ k) :
    lookupKey (setKey o k v) k2 = lookupKey o k2 := by
  induction o with
  | nil => simp [setKey, lookupKey, Ne.symm h]
  | cons p rest ih =>
    obtain ⟨k0, v0⟩ := p
    by_cases hp : k0 = k
    · subst hp
      simp [setKey, lookupKey, Ne.symm h]
    · simp [setKey, lookupKey, hp, ih]

/-- C9: `RunCommand` mutates the caller's command in place: afterwards
its `id` field is the fixed correlation id 77 and every other field is
unchanged. -/
theorem run_command_stamps_id (cmd : JsonObj) (responses : List JsonObj) :
    lookupKey (RunCommand cmd responses).1 "id" = some (.jnum 77)
    ∧ ∀ k, k ≠ "id" →
      lookupKey (RunCommand cmd responses).1 k = lookupKey cmd k :=
  ⟨lookupKey_setKey_self cmd "id" (.jnum 77),
   fun k hk => lookupKey_setKey_other cmd "id" k (.jnum 77) hk⟩

/-- Witness for C9: the id field of a concrete command is overwritten
with 77 and its method field is untouched. -/
theorem run_command_stamps_id_witness :
    lookupKey (RunCommand
        [("id", JrVal.jnum 1), ("method", JrVal.jstr "Page.navigate")] []).1 "id"
      = some (.jnum 77)
    ∧ lookupKey (RunCommand
        [("id", JrVal.jnum 1), ("method", JrVal.jstr "Page.navigate")] []).1 "method"
      = lookupKey [("id", JrVal.jnum 1), ("method", JrVal.jstr "Page.navigate")] "method" :=
  ⟨(run_command_stamps_id
      [("id", JrVal.jnum 1), ("method", JrVal.jstr "Page.navigate")] []).1,
   (run_command_stamps_id
      [("id", JrVal.jnum 1), ("method", JrVal.jstr "Page.navigate")] []).2
     "method" (by decide)⟩

/-- C6: `RunJs_GetValue` returns the literal value when a `value` field
is present; with no `value` field it returns the `objectId` for subtype
`node`, raises `ChromeCommunicatorCommandJsError` carrying the
description for subtype `error`, and raises
`ChromeCommunicatorCommandUnknownError` carrying the result object in
every other case. -/
theorem run_js_get_value_cases (result : JsonObj) :
    (∀ v, lookupKey result "value" = some v → RunJs_GetValue result = .ret v)
    ∧ (∀ oid, lookupKey result "value" = none →
        lookupKey result "subtype" = some (.jstr "node") →
        lookupKey result "objectId" = some oid →
        RunJs_GetValue result = .ret oid)
    ∧ (∀ d, lookupKey result "value" = none →
        lookupKey result "subtype" = some (.jstr "error") →
        lookupKey result "description" = some d →
        RunJs_GetValue result = .jsError d)
    ∧ (lookupKey result "value" = none →
        lookupKey result "subtype" ≠ some (.jstr "node") →
        lookupKey result "subtype" ≠ some (.jstr "error") →
        RunJs_GetValue result = .unknownError result) := by
  refine ⟨?_, ?_, ?_, ?_⟩
  · intro v hv; simp [RunJs_GetValue, hv]
  · intro oid hv hst hoid; simp [RunJs_GetValue, hv, hst, hoid]
  · intro d hv hst hd; simp [RunJs_GetValue, hv, hst, hd]
  · intro hv hnode herr
    cases hst : lookupKey result "subtype" with
    | none => simp [RunJs_GetValue, hv, hst]
    | some st =>
      have h1 : ¬ st = .jstr "node" := fun hc => hnode (by rw [hst, hc])
      have h2 : ¬ st = .jstr "error" := fun hc => herr (by rw [hst, hc])
      simp [RunJs_GetValue, hv, hst, h1, h2]

/-- Witness for C6: the four result shapes from the spec. -/
theorem run_js_get_value_cases_witness :
    RunJs_GetValue [("value", JrVal.jnum 42)] = .ret (.jnum 42)
    ∧ RunJs_GetValue [("subtype", JrVal.jstr "node"), ("objectId", JrVal.jstr "123")]
      = .ret (.jstr "123")
    ∧ RunJs_GetValue [("subtype", JrVal.jstr "error"), ("description", JrVal.jstr "boom")]
      = .jsError (.jstr "boom")
    ∧ RunJs_GetValue [("subtype", JrVal.jstr "other")]
      = .unknownError [("subtype", JrVal.jstr "other")] :=
  ⟨(run_js_get_value_cases [("value", JrVal.jnum 42)]).1 _ (by decide),
   (run_js_get_value_cases
      [("subtype", JrVal.jstr "node"), ("objectId", JrVal.jstr "123")]).2.1 _
     (by decide) (by decide) (by decide),
   (run_js_get_value_cases
      [("subtype", JrVal.jstr "error"), ("description", JrVal.jstr "boom")]).2.2.1 _
     (by decide) (by decide) (by decide),
   (run_js_get_value_cases [("subtype", JrVal.jstr "other")]).2.2.2
     (by decide) (by decide) (by decide)⟩

/-- A spawned Chrome driver: its identity and whether the underlying
process reports alive (`IsAlive`, i.e. `self._proc.poll() is None`).
Aliveness is owned by the outside world; an external crash between
manager calls is modelled by flipping this field in the state. -/
structure ChromeDriver where
  id : Nat
  alive : Bool
deriving DecidableEq

/-- `ChromeDriverManager` state: the optional current driver, a counter
supplying fresh driver identities for `_CreateDriver`, and the list of
driver ids on which `Kill` has been invoked, in order. -/
structure ChromeDriverManager where
  driver : Option ChromeDriver
  nextId : Nat
  kills : List Nat
deriving DecidableEq

/-- `ChromeDriverManager.Quit`: if a driver exists and `IsAlive()`, call
`Kill()` on it (recorded in `kills`); in every case reset `_driver` to
`None`.  Total: the model has no raising path. -/
def ChromeDriverManager.Quit (s : ChromeDriverManager) : ChromeDriverManager :=
  match s.driver with
  | none => s
  | some d =>
    { s with driver := none
             kills := if d.alive then s.kills ++ [d.id] else s.kills }

/-- `ChromeDriverManager._CreateDriver`: `CreateChromeDriver` spawns a
fresh, alive driver, stores it and returns it. -/
def ChromeDriverManager.CreateDriver (s : ChromeDriverManager) :
    ChromeDriverManager × ChromeDriver :=
  (⟨some ⟨s.nextId, true⟩, s.nextId + 1, s.kills⟩, ⟨s.nextId, true⟩)

/-- `ChromeDriverManager._GetOrCreateDriver`: return the current driver
only if it exists and `IsAlive()`; otherwise `Quit()` then spawn. -/
def ChromeDriverManager.GetOrCreateDriver (s : ChromeDriverManager) :
    ChromeDriverManager × ChromeDriver :=
  match s.driver with
  | some d => if d.alive then (s, d) else s.Quit.CreateDriver
  | none => s.Quit.CreateDriver

/-- `ChromeDriverManager.Do`: obtains a driver via
`_GetOrCreateDriver`, runs `action_fn(driver)`, and on success quits if
`close_upon_completion`.  There is no `try` around the action: an
exception from `action_fn` propagates unchanged with no cleanup (and
`Quit` is skipped even when `close_upon_completion` is set). -/
def ChromeDriverManager.Do {α ε : Type} (s : ChromeDriverManager)
    (action_fn : ChromeDriver → Except ε α) (close_upon_completion : Bool) :
    ChromeDriverManager × Except ε α :=
  match s.GetOrCreateDriver with
  | (s1, d) =>
    match action_fn d with
    | .error e => (s1, .error e)
    | .ok r =>
      if close_upon_completion then (s1.Quit, .ok r) else (s1, .ok r)

/-- `WebDriverManager` state (webdriver_helper.py): the optional current
driver (identified by a number), a fresh-id counter, and how many times
the best-effort `_KillBrowsersAndDrivers` cleanup has been invoked. -/
structure WebDriverManager where
  driver : Option Nat
  nextId : Nat
  cleanupCount : Nat
deriving DecidableEq

/-- `WebDriverManager.Quit`: `self._driver.quit()` under a blanket
`except: pass`, then clear the stored driver. -/
def WebDriverManager.Quit (s : WebDriverManager) : WebDriverManager :=
  { s with driver := none }

/-- `WebDriverManager._GetOrCreateDriver`: reuse the stored driver if
set, otherwise create a fresh one. -/
def WebDriverManager.GetOrCreateDriver (s : WebDriverManager) :
    WebDriverManager × Nat :=
  match s.driver with
  | some i => (s, i)
  | none => (⟨some s.nextId, s.nextId + 1, s.cleanupCount⟩, s.nextId)

/-- One attempt of `WebDriverManager.Do` (the body inside the
`retrying.retry` decorator): on any exception from the action,
`_KillBrowsersAndDrivers()` is invoked (counted in `cleanupCount`), the
stored driver is cleared, and the same exception is re-raised
unchanged. -/
def WebDriverManager.DoAttempt {α ε : Type} (s : WebDriverManager)
    (action_fn : Nat → Except ε α) (close_upon_completion : Bool) :
    WebDriverManager × Except ε α :=
  match s.GetOrCreateDriver with
  | (s1, d) =>
    match action_fn d with
    | .ok r =>
      if close_upon_completion then (s1.Quit, .ok r) else (s1, .ok r)
    | .error e =>
      (⟨none, s1.nextId, s1.cleanupCount + 1⟩, .error e)

/-- C3 counterexample: `ChromeDriverManager.Do` with an action that
raises re-raises the exception unchanged but performs no cleanup at
all — the stored driver is neither discarded nor killed, refuting the
claim that best-effort cleanup happens before the re-raise. -/
theorem chrome_do_no_cleanup_counterexample :
    ChromeDriverManager.Do ⟨some ⟨0, true⟩, 1, []⟩
      (fun _ => (Except.error 5 : Except Nat Nat)) false
      = (⟨some ⟨0, true⟩, 1, []⟩, Except.error 5)
    ∧ (ChromeDriverManager.Do ⟨some ⟨0, true⟩, 1, []⟩
      (fun _ => (Except.error 5 : Except Nat Nat)) false).1.driver ≠ none :=
  ⟨rfl, by decide⟩

/-- C3 (amended): an exception raised by the action is re-raised to the
caller unchanged and never swallowed by either manager.
`WebDriverManager.Do` performs best-effort cleanup first
(`_KillBrowsersAndDrivers` plus clearing the stored driver), but
`ChromeDriverManager.Do` performs no cleanup: its state — the stored
driver included — is exactly as `_GetOrCreateDriver` left it, and
recovery is deferred to the next call's liveness check. -/
theorem do_exception_propagation {α ε : Type}
    (s : ChromeDriverManager) (d : ChromeDriver)
    (a : ChromeDriver → Except ε α)
    (t : WebDriverManager) (i : Nat) (b : Nat → Except ε α)
    (e : ε) (close : Bool)
    (hs : s.driver = some d) (hd : d.alive = true) (ha : a d = .error e)
    (ht : t.driver = some i) (hb : b i = .error e) :
    s.Do a close = (s, .error e)
    ∧ t.DoAttempt b close = (⟨none, t.nextId, t.cleanupCount + 1⟩, .error e) := by
  constructor
  · have hget : s.GetOrCreateDriver = (s, d) := by
      simp [ChromeDriverManager.GetOrCreateDriver, hs, hd]
    simp [ChromeDriverManager.Do, hget, ha]
  · have hget : t.GetOrCreateDriver = (t, i) := by
      simp [WebDriverManager.GetOrCreateDriver, ht]
    simp [WebDriverManager.DoAttempt, hget, hb]

/-- Witness for C3 (amended) at concrete manager states and a concrete
raising action. -/
theorem do_exception_propagation_witness :
    ChromeDriverManager.Do ⟨some ⟨0, true⟩, 1, []⟩
      (fun _ => (Except.error 7 : Except Nat Nat)) true
      = (⟨some ⟨0, true⟩, 1, []⟩, Except.error 7)
    ∧ WebDriverManager.DoAttempt ⟨some 0, 1, 0⟩
      (fun _ => (Except.error 7 : Except Nat Nat)) true
      = (⟨none, 1, 1⟩, Except.error 7) :=
  do_exception_propagation ⟨some ⟨0, true⟩, 1, []⟩ ⟨0, true⟩
    (fun _ => (Except.error 7 : Except Nat Nat)) ⟨some 0, 1, 0⟩ 0
    (fun _ => (Except.error 7 : Except Nat Nat)) 7 true
    rfl rfl rfl rfl rfl

/-- C4 counterexample: with the stored driver reporting not alive, the
next `Do` spawns a fresh instance but `Kill` is invoked zero times on
the old instance — not exactly once as claimed — because `Quit` only
kills a driver whose `IsAlive()` is true. -/
theorem do_dead_driver_no_kill_counterexample :
    (ChromeDriverManager.Do ⟨some ⟨0, false⟩, 1, []⟩
      (fun x => (Except.ok x : Except Unit ChromeDriver)) false).1.kills = []
    ∧ ¬ ((ChromeDriverManager.Do ⟨some ⟨0, false⟩, 1, []⟩
      (fun x => (Except.ok x : Except Unit ChromeDriver)) false).1.kills.count 0 = 1) := by
  decide

/-- C4 (amended): if the stored driver reports alive, `Do` passes that
same instance to the action and leaves the state unchanged, so an
immediately following `Do` passes the same instance again; if the
stored driver reports not alive, `Do` discards it without ever invoking
`Kill` on it (the kill log is unchanged) and spawns a fresh instance
which is passed to the action. -/
theorem do_driver_reuse (s : ChromeDriverManager) (d : ChromeDriver)
    (hs : s.driver = some d) :
    (d.alive = true →
      s.Do (fun x => (Except.ok x : Except Unit ChromeDriver)) false = (s, .ok d)
      ∧ ((s.Do (fun x => (Except.ok x : Except Unit ChromeDriver)) false).1).Do
          (fun x => (Except.ok x : Except Unit ChromeDriver)) false = (s, .ok d))
    ∧ (d.alive = false →
      s.Do (fun x => (Except.ok x : Except Unit ChromeDriver)) false
        = (⟨some ⟨s.nextId, true⟩, s.nextId + 1, s.kills⟩, .ok ⟨s.nextId, true⟩)) := by
  constructor
  · intro hd
    have hget : s.GetOrCreateDriver = (s, d) := by
      simp [ChromeDriverManager.GetOrCreateDriver, hs, hd]
    have h1 : s.Do (fun x => (Except.ok x : Except Unit ChromeDriver)) false
        = (s, .ok d) := by
      simp [ChromeDriverManager.Do, hget]
    exact ⟨h1, by rw [h1]; exact h1⟩
  · intro hd
    have hq : s.Quit = ⟨none, s.nextId, s.kills⟩ := by
      simp [ChromeDriverManager.Quit, hs, hd]
    have hget : s.GetOrCreateDriver
        = (⟨some ⟨s.nextId, true⟩, s.nextId + 1, s.kills⟩, ⟨s.nextId, true⟩) := by
      simp [ChromeDriverManager.GetOrCreateDriver, hs, hd, hq,
        ChromeDriverManager.CreateDriver]
    simp [ChromeDriverManager.Do, hget]

/-- Witness for C4 (amended): an alive driver is reused by two
consecutive calls; a dead driver is replaced by a fresh one with no
entry added to the kill log. -/
theorem do_driver_reuse_witness :
    (ChromeDriverManager.Do ⟨some ⟨3, true⟩, 4, [2]⟩
      (fun x => (Except.ok x : Except Unit ChromeDriver)) false
      = (⟨some ⟨3, true⟩, 4, [2]⟩, .ok ⟨3, true⟩))
    ∧ (ChromeDriverManager.Do ⟨some ⟨3, false⟩, 4, [2]⟩
      (fun x => (Except.ok x : Except Unit ChromeDriver)) false
      = (⟨some ⟨4, true⟩, 5, [2]⟩, .ok ⟨4, true⟩)) :=
  ⟨((do_driver_reuse ⟨some ⟨3, true⟩, 4, [2]⟩ ⟨3, true⟩ rfl).1 rfl).1,
   (do_driver_reuse ⟨some ⟨3, false⟩, 4, [2]⟩ ⟨3, false⟩ rfl).2 rfl⟩

/-- C8: `Quit` always leaves the manager with no driver, a second
`Quit` immediately afterwards is a no-op (the state is unchanged, so in
particular nothing further is killed and nothing can raise — the model
of `Quit` is a total function), and `Kill` is invoked by `Quit` exactly
on a stored driver that reports alive. -/
theorem quit_idempotent (s : ChromeDriverManager) :
    (s.Quit).driver = none
    ∧ (s.Quit).Quit = s.Quit
    ∧ (s.Quit).nextId = s.nextId
    ∧ (s.Quit).kills = s.kills ++ (match s.driver with
        | some d => if d.alive then [d.id] else []
        | none => []) := by
  cases hs : s.driver with
  | none =>
    refine ⟨?_, ?_, ?_, ?_⟩ <;>
      simp [ChromeDriverManager.Quit, hs]
  | some d =>
    by_cases hd : d.alive <;>
      refine ⟨?_, ?_, ?_, ?_⟩ <;>
        simp [ChromeDriverManager.Quit, hs, hd]
